import Mathlib

/-!
Verification of the CumulusCI bulk-data subsystem
(`cumulusci/tasks/bulkdata/step.py` and `cumulusci/tasks/bulkdata/snowfakery.py`).

The Python sources are shallowly embedded: pure decision logic becomes Lean
functions, remote-API interactions become oracle parameters (functions
supplying the records a query would return), Python `float` version numbers
become `Rat`, and Python runtime errors (`UnboundLocalError`, assertion
failures, short CSV rows) become `Except`/`Option` results.
-/

namespace CumulusCI

/-- `DataOperationType` from step.py: the API data operation requested. -/
inductive DataOperationType where
  | INSERT
  | UPDATE
  | DELETE
  | HARD_DELETE
  | QUERY
  | UPSERT
  | ETL_UPSERT
  | SMART_UPSERT
  | SELECT
deriving DecidableEq, Repr

/-- `DataOperationStatus` from step.py: outcome values for a data operation. -/
inductive DataOperationStatus where
  | SUCCESS
  | ROW_FAILURE
  | JOB_FAILURE
  | IN_PROGRESS
  | ABORTED
deriving DecidableEq, Repr

/-- `DataOperationJobResult` from step.py: aggregate outcome for a whole operation. -/
structure DataOperationJobResult where
  status : DataOperationStatus
  job_errors : List String
  records_processed : Nat
  total_row_errors : Nat
deriving DecidableEq, Repr

/-- One `<batchInfo>` entry of the Bulk API job-status XML, as read by
`BulkJobMixin._parse_job_state`: the `state` element, the optional
`stateMessage` element, and the two record counters. -/
structure BatchInfo where
  state : String
  stateMessage : Option String
  numberRecordsFailed : Nat
  numberRecordsProcessed : Nat
deriving DecidableEq, Repr

/-- `BulkJobMixin._parse_job_state` from step.py, over the parsed batch list:
classifies the whole job from the batch-level states and sums the two
per-batch record counters. -/
def parseJobState (batches : List BatchInfo) : DataOperationJobResult :=
  let statuses := batches.map BatchInfo.state
  let stateMessages := batches.filterMap BatchInfo.stateMessage
  let recordFailureCount := (batches.map BatchInfo.numberRecordsFailed).sum
  let recordsProcessedCount := (batches.map BatchInfo.numberRecordsProcessed).sum
  if "Not Processed" ∈ statuses then
    ⟨DataOperationStatus.ABORTED, [], recordsProcessedCount, recordFailureCount⟩
  else if "InProgress" ∈ statuses ∨ "Queued" ∈ statuses then
    ⟨DataOperationStatus.IN_PROGRESS, [], recordsProcessedCount, recordFailureCount⟩
  else if "Failed" ∈ statuses then
    ⟨DataOperationStatus.JOB_FAILURE, stateMessages, recordsProcessedCount, recordFailureCount⟩
  else if recordFailureCount ≠ 0 then
    ⟨DataOperationStatus.ROW_FAILURE, [], recordsProcessedCount, recordFailureCount⟩
  else
    ⟨DataOperationStatus.SUCCESS, [], recordsProcessedCount, recordFailureCount⟩

/-- `DataApi` from cumulusci.tasks.bulkdata.utils.
Modelled from the spec: the data-API selection override is one of
auto ("smart", the default), synchronous (REST) or asynchronous (Bulk). -/
inductive DataApi where
  | SMART
  | BULK
  | REST
deriving DecidableEq, Repr

/-- The API-selection logic of `get_dml_operation` from step.py.
`apiVersion` is `float(context.sf.sf_version)`; `api` is the caller's
requested `Optional[DataApi]` (`none` is Python `None`); unknown apis fall
through to the `AssertionError` branch, modelled as `Except.error`. -/
def getDmlOperationApi (apiVersion : Rat) (api : Option DataApi) (volume : Nat)
    (operation : DataOperationType) : Except String DataApi :=
  let api1 := if apiVersion < 42 ∧ api ≠ some DataApi.BULK then some DataApi.BULK else api
  let api2 :=
    if api1 = some DataApi.SMART ∨ api1 = none then
      some (if 2000 ≤ volume ∨ operation = DataOperationType.HARD_DELETE then DataApi.BULK
            else DataApi.REST)
    else api1
  match api2 with
  | some DataApi.BULK => Except.ok DataApi.BULK
  | some DataApi.REST => Except.ok DataApi.REST
  | _ => Except.error "Unknown API"

/-- `ERROR_THRESHOLD` from snowfakery.py. -/
def ERROR_THRESHOLD : Nat := 0

/-- The failure-threshold check of `Snowfakery._report_status` from
snowfakery.py: `some message` models the raised `BulkDataException`,
`none` models a normal return. -/
def reportStatusError (setsFailed : Nat) : Option String :=
  if ERROR_THRESHOLD < setsFailed then
    some ("Errors exceeded threshold: " ++ toString setsFailed ++ " vs " ++
      toString ERROR_THRESHOLD)
  else
    none

/-- C4: for every multiset of batch states reported for an async job, the
aggregated job status is classified by precedence — any "Not Processed"
batch yields aborted; otherwise any in-progress or queued batch yields
in-progress; otherwise any failed batch yields job_failure; otherwise a
failed-record count greater than zero yields row_failure; otherwise
success — with records_processed and total_row_errors summed across all
batches. -/
theorem claim_C4_parse_job_state_classification (batches : List BatchInfo) :
    (parseJobState batches).records_processed =
      (batches.map BatchInfo.numberRecordsProcessed).sum ∧
    (parseJobState batches).total_row_errors =
      (batches.map BatchInfo.numberRecordsFailed).sum ∧
    (parseJobState batches).status =
      (if "Not Processed" ∈ batches.map BatchInfo.state then DataOperationStatus.ABORTED
       else if "InProgress" ∈ batches.map BatchInfo.state ∨
               "Queued" ∈ batches.map BatchInfo.state then DataOperationStatus.IN_PROGRESS
       else if "Failed" ∈ batches.map BatchInfo.state then DataOperationStatus.JOB_FAILURE
       else if 0 < (batches.map BatchInfo.numberRecordsFailed).sum then
         DataOperationStatus.ROW_FAILURE
       else DataOperationStatus.SUCCESS) := by
  unfold parseJobState
  simp only [Nat.pos_iff_ne_zero]
  split_ifs <;> exact ⟨rfl, rfl, rfl⟩

/-- C3 counterexample: a caller who forces the synchronous REST backend does
not get it when the remote API version is below 42.0 — `get_dml_operation`
silently replaces the forced REST choice with the Bulk backend. -/
theorem claim_C3_counterexample :
    getDmlOperationApi 41 (some DataApi.REST) 100 DataOperationType.INSERT ≠
      Except.ok DataApi.REST := by
  have h : (41 : Rat) < 42 := by norm_num
  simp [getDmlOperationApi, h]

/-- C3 (amended): in smart mode (explicit `SMART` or Python `None`) the bulk
backend is chosen exactly when the volume hint is at least 2000, or the
operation is hard delete, or the remote API version is below 42.0, and the
REST backend otherwise; a caller forcing the bulk backend always gets it;
a caller forcing the REST backend gets it only when the API version is at
least 42.0, and gets the bulk backend below that. -/
theorem claim_C3_backend_choice_amended (v : Rat) (vol : Nat) (op : DataOperationType) :
    getDmlOperationApi v (some DataApi.SMART) vol op =
      Except.ok (if 2000 ≤ vol ∨ op = DataOperationType.HARD_DELETE ∨ v < 42
                 then DataApi.BULK else DataApi.REST) ∧
    getDmlOperationApi v none vol op =
      Except.ok (if 2000 ≤ vol ∨ op = DataOperationType.HARD_DELETE ∨ v < 42
                 then DataApi.BULK else DataApi.REST) ∧
    getDmlOperationApi v (some DataApi.BULK) vol op = Except.ok DataApi.BULK ∧
    getDmlOperationApi v (some DataApi.REST) vol op =
      Except.ok (if v < 42 then DataApi.BULK else DataApi.REST) := by
  unfold getDmlOperationApi
  by_cases hv : v < 42 <;>
    by_cases hvol : 2000 ≤ vol <;>
      by_cases hop : op = DataOperationType.HARD_DELETE <;>
        simp [hv, hvol, hop]

/-- C9: the run loop's status report raises a fatal exception naming the
threshold and the actual failed-set count exactly when `sets_failed`
exceeds the error threshold, whose value is zero. -/
theorem claim_C9_error_threshold (setsFailed : Nat) :
    reportStatusError setsFailed =
      (if 0 < setsFailed then
        some ("Errors exceeded threshold: " ++ toString setsFailed ++ " vs " ++
          toString ERROR_THRESHOLD)
       else none) ∧
    ERROR_THRESHOLD = 0 := by
  exact ⟨rfl, rfl⟩

/-- `SelectStrategy` from cumulusci.tasks.bulkdata.select_utils.
Modelled from the spec: enumeration governing query construction and
post-processing policy for select operations. -/
inductive SelectStrategy where
  | STANDARD
  | RANDOM
  | SIMILARITY
deriving DecidableEq, Repr

/-- One assignment produced by select post-processing: the Python dict
`{id, success, created}`. -/
structure SelectedRecord where
  id : String
  success : Bool
  created : Bool
deriving DecidableEq, Repr

/-- Modelled from the spec: `levenshtein_distance` from select_utils (not under
src/) — classic edit distance, case-sensitive, over code points. -/
def levenshteinDistance : List Char → List Char → Nat
  | [], ys => ys.length
  | xs, [] => xs.length
  | x :: xs, y :: ys =>
    if x = y then levenshteinDistance xs ys
    else 1 + min (levenshteinDistance xs (y :: ys))
      (min (levenshteinDistance (x :: xs) ys) (levenshteinDistance xs ys))
termination_by xs ys => xs.length + ys.length

/-- Modelled from the spec: `calculate_levenshtein_distance` from select_utils
(not under src/) — per-field distance with the dampened 5% penalty when
exactly one of the two fields is empty, weighted and averaged over the field
count; errors on mismatched record or weight lengths. -/
def calculateLevenshteinDistance (recordA recordB : List String) (weights : List Rat) :
    Except String Rat :=
  if recordA.length ≠ recordB.length then
    Except.error "Records must have the same number of fields."
  else if weights.length ≠ recordA.length then
    Except.error "Records must be same size as fields (weights)."
  else
    let fieldDist := fun (a b : String) =>
      if (a = "" ∧ b ≠ "") ∨ (a ≠ "" ∧ b = "") then
        (levenshteinDistance a.data b.data : Rat) * (5 / 100)
      else
        (levenshteinDistance a.data b.data : Rat)
    let total := ((recordA.zip recordB).zip weights).foldl
      (fun acc p => acc + fieldDist p.1.1 p.1.2 * p.2) 0
    Except.ok (total / recordA.length)

/-- Linear scan for `find_closest_record`: carries the best candidate seen so
far with its distance; a strictly smaller distance replaces it, so ties keep
the first-encountered candidate. -/
def findClosestGo (loadRecord : List String) (weights : List Rat)
    (best : Option (List String × Rat)) :
    List (List String) → Except String (Option (List String × Rat))
  | [] => Except.ok best
  | c :: cs =>
    match calculateLevenshteinDistance loadRecord (c.drop 1) weights with
    | Except.error e => Except.error e
    | Except.ok d =>
      let best' := match best with
        | none => some (c, d)
        | some (b, bd) => if d < bd then some (c, d) else some (b, bd)
      findClosestGo loadRecord weights best' cs

/-- Modelled from the spec: `find_closest_record` from select_utils (not under
src/) — picks the candidate (leading identifier column excluded from the
comparison) at minimum weighted distance, first-encountered on ties. -/
def findClosestRecord (loadRecord : List String) (queryRecords : List (List String))
    (weights : List Rat) : Except String (Option (List String)) :=
  (findClosestGo loadRecord weights none queryRecords).map (fun b => b.map Prod.fst)

/-- The "no candidates" message used by select post-processing. -/
def noRecordsMessage (sobject : String) : String :=
  "No records found for " ++ sobject ++ " in the target org."

/-- Modelled from the spec: `select_post_process` from select_utils (not under
src/) — empty `query_records` yield `([], "No records found for {sobject} in
the target org.")`; STANDARD/RANDOM cycle through `query_records` round-robin
to produce exactly `num_records` assignments `{id, success := true,
created := false}`; SIMILARITY assigns each load record its nearest candidate
via the distance engine. -/
def selectPostProcess (strategy : SelectStrategy) (loadRecords : List (List String))
    (queryRecords : List (List String)) (numRecords : Nat) (sobject : String)
    (weights : List Rat) : Except String (List SelectedRecord × Option String) :=
  match queryRecords with
  | [] => Except.ok ([], some (noRecordsMessage sobject))
  | q :: qs =>
    match strategy with
    | SelectStrategy.STANDARD | SelectStrategy.RANDOM =>
      Except.ok ((List.range numRecords).map (fun i =>
        ⟨((q :: qs).getD (i % (q :: qs).length) []).headD "", true, false⟩), none)
    | SelectStrategy.SIMILARITY =>
      match loadRecords.mapM (fun lr =>
        (findClosestRecord lr (q :: qs) weights).map (fun c =>
          (⟨(c.getD []).headD "", true, false⟩ : SelectedRecord))) with
      | Except.error e => Except.error e
      | Except.ok assigns => Except.ok (assigns, none)

/-- `RestApiDmlOperation.select_records` from step.py, with
`selection_filter=None`. The remote store is an oracle: `fetch offset` is the
converted record list the batch query at that offset returns. The final job
result takes `num_records := total_num_records` (the whole input length). -/
def restSelectRecords (batchSize : Nat) (strategy : SelectStrategy) (weights : List Rat)
    (fetch : Nat → List (List String)) (records : List (List String)) (sobject : String) :
    Except String (DataOperationJobResult × List SelectedRecord) :=
  let totalNumRecords := records.length
  let offsets := List.range' 0 ((totalNumRecords + batchSize - 1) / batchSize) batchSize
  let queryRecords := offsets.flatMap fetch
  match selectPostProcess strategy records queryRecords totalNumRecords sobject weights with
  | Except.error e => Except.error e
  | Except.ok (selectedRecords, errorMessage) =>
    let results := if errorMessage = none then selectedRecords else []
    Except.ok (⟨if results.length ≠ 0 then DataOperationStatus.SUCCESS
                else DataOperationStatus.JOB_FAILURE,
                errorMessage.toList, results.length, 0⟩, results)

/-- `BulkApiDmlOperation.select_records` from step.py, with
`selection_filter=None` and the remote store as an oracle (`fetch offset` is
what `_execute_select_query` returns for that batch). `num_records` is a
Python loop-local: it is assigned `min(batch_size, total - offset)` on every
iteration, so its final value comes from the last offset, and it is never
assigned when the loop body never runs (`none` models the unassigned local;
referencing it then is Python's `UnboundLocalError`). The post-processing
call receives this leftover loop value, not the total input length. -/
def bulkSelectRecords (batchSize : Nat) (strategy : SelectStrategy) (weights : List Rat)
    (fetch : Nat → List (List String)) (records : List (List String)) (sobject : String) :
    Except String (DataOperationJobResult × List SelectedRecord) :=
  let totalNumRecords := records.length
  let offsets := List.range' 0 ((totalNumRecords + batchSize - 1) / batchSize) batchSize
  let numRecordsFinal : Option Nat :=
    offsets.getLast?.map (fun offset => min batchSize (totalNumRecords - offset))
  let queryRecords := offsets.flatMap fetch
  match numRecordsFinal with
  | none => Except.error "local variable num_records referenced before assignment"
  | some numRecords =>
    match selectPostProcess strategy records queryRecords numRecords sobject weights with
    | Except.error e => Except.error e
    | Except.ok (selectedRecords, errorMessage) =>
      let results := if errorMessage = none then selectedRecords else []
      Except.ok (⟨if results.length ≠ 0 then DataOperationStatus.SUCCESS
                  else DataOperationStatus.JOB_FAILURE,
                  errorMessage.toList, results.length, 0⟩, results)

/-- STANDARD-strategy post-processing never raises. -/
theorem selectPostProcessStandardOk (records queryRecords : List (List String))
    (numRecords : Nat) (sobject : String) (weights : List Rat) :
    ∃ p, selectPostProcess SelectStrategy.STANDARD records queryRecords numRecords
      sobject weights = Except.ok p := by
  cases queryRecords <;> exact ⟨_, rfl⟩

/-- C1: the bulk backend's select passes the leftover loop value of
`num_records` (the size of the final batch) to post-processing, so for 3
input records at batch size 2 with a non-empty candidate set it reports
`records_processed = 1`, while the REST backend, which passes the total,
reports 3 — one assignment per input record. -/
theorem claim_C1_bulk_select_records_processed_mismatch :
    ([["a"], ["b"], ["c"]] : List (List String)).length = 3 ∧
    bulkSelectRecords 2 SelectStrategy.STANDARD [] (fun _ => [["001"]])
        [["a"], ["b"], ["c"]] "Account" =
      Except.ok (⟨DataOperationStatus.SUCCESS, [], 1, 0⟩,
        [⟨"001", true, false⟩]) ∧
    restSelectRecords 2 SelectStrategy.STANDARD [] (fun _ => [["001"]])
        [["a"], ["b"], ["c"]] "Account" =
      Except.ok (⟨DataOperationStatus.SUCCESS, [], 3, 0⟩,
        [⟨"001", true, false⟩, ⟨"001", true, false⟩, ⟨"001", true, false⟩]) ∧
    (1 : Nat) ≠ 3 := by
  refine ⟨rfl, rfl, rfl, by decide⟩

/-- C7: a REST select operation whose retrieved candidate set is empty
completes without an exception and produces a job result with status
job_failure, the descriptive "No records found" message among its job
errors, and zero selected records. -/
theorem claim_C7_empty_candidates_job_failure (batchSize : Nat)
    (strategy : SelectStrategy) (weights : List Rat)
    (fetch : Nat → List (List String)) (records : List (List String))
    (sobject : String) (hb : 0 < batchSize) (hf : ∀ o, fetch o = []) :
    restSelectRecords batchSize strategy weights fetch records sobject =
      Except.ok (⟨DataOperationStatus.JOB_FAILURE, [noRecordsMessage sobject], 0, 0⟩,
        []) := by
  have hq : (List.range' 0 ((records.length + batchSize - 1) / batchSize)
      batchSize).flatMap fetch = [] := by
    simp [hf]
  simp [restSelectRecords, hq, selectPostProcess]

/-- C7 witness: a concrete empty-candidate select, with the message spelled
out. -/
theorem claim_C7_witness :
    0 < 200 ∧ ((fun _ : Nat => ([] : List (List String))) 0 = []) ∧
    restSelectRecords 200 SelectStrategy.STANDARD [] (fun _ => []) [["x"]] "Lead" =
      Except.ok (⟨DataOperationStatus.JOB_FAILURE, [noRecordsMessage "Lead"], 0, 0⟩,
        []) ∧
    noRecordsMessage "Lead" = "No records found for Lead in the target org." :=
  ⟨by decide, rfl,
    claim_C7_empty_candidates_job_failure 200 SelectStrategy.STANDARD []
      (fun _ => []) [["x"]] "Lead" (by decide) (fun _ => rfl),
    rfl⟩

/-- An `Except` known to be ok holds some value. -/
theorem exceptIsOkExists {ε α : Type} (e : Except ε α) (h : e.isOk = true) :
    ∃ a, e = Except.ok a := by
  cases e with
  | error _ => simp [Except.isOk, Except.toBool] at h
  | ok a => exact ⟨a, rfl⟩

/-- C10: calling the bulk backend's select with an empty input iterator makes
the post-processing site read the never-assigned loop-local `num_records`,
failing with an unbound-variable error; with at least one input record (and a
positive batch size) the operation instead returns a job result. -/
theorem claim_C10_bulk_select_empty_input :
    (∀ (batchSize : Nat) (strategy : SelectStrategy) (weights : List Rat)
        (fetch : Nat → List (List String)) (sobject : String),
      bulkSelectRecords batchSize strategy weights fetch [] sobject =
        Except.error "local variable num_records referenced before assignment") ∧
    (∀ (batchSize : Nat) (weights : List Rat) (fetch : Nat → List (List String))
        (records : List (List String)) (sobject : String),
      0 < batchSize → records ≠ [] →
      ∃ r, bulkSelectRecords batchSize SelectStrategy.STANDARD weights fetch records
        sobject = Except.ok r) := by
  constructor
  · intro batchSize strategy weights fetch sobject
    have h : (batchSize - 1) / batchSize = 0 := by
      rcases Nat.eq_zero_or_pos batchSize with h | h
      · simp [h]
      · exact Nat.div_eq_of_lt (by omega)
    simp [bulkSelectRecords, h]
  · intro batchSize weights fetch records sobject hb hr
    have hlen : 0 < records.length := List.length_pos.mpr hr
    have hk : 0 < (records.length + batchSize - 1) / batchSize :=
      Nat.div_pos (by omega) hb
    have hne : List.range' 0 ((records.length + batchSize - 1) / batchSize)
        batchSize ≠ [] := by
      simp [List.range'_eq_nil]
      omega
    apply exceptIsOkExists
    rcases hlast : List.getLast? (List.range' 0
        ((records.length + batchSize - 1) / batchSize) batchSize) with _ | o
    · rw [List.getLast?_eq_none_iff] at hlast
      exact absurd hlast hne
    · obtain ⟨⟨sel, err⟩, hp⟩ := selectPostProcessStandardOk records
        ((List.range' 0 ((records.length + batchSize - 1) / batchSize)
          batchSize).flatMap fetch)
        (min batchSize (records.length - o)) sobject weights
      simp [bulkSelectRecords, hlast, hp, Except.isOk, Except.toBool]

/-- C10 witness: one input record at batch size 1 returns a job result. -/
theorem claim_C10_witness :
    0 < 1 ∧ ([["x"]] : List (List String)) ≠ [] ∧
    ∃ r, bulkSelectRecords 1 SelectStrategy.STANDARD [] (fun _ => [])
      [["x"]] "Account" = Except.ok r :=
  ⟨by decide, by decide,
    claim_C10_bulk_select_empty_input.2 1 [] (fun _ => []) [["x"]] "Account"
      (by decide) (by decide)⟩

/-- Doubling of embedded quotes done by `csv.writer` for a quoted field. -/
def csvEscapeChars : List Char → List Char
  | [] => []
  | c :: cs => if c = '"' then '"' :: '"' :: csvEscapeChars cs else c :: csvEscapeChars cs

/-- `BulkApiDmlOperation._serialize_csv_record` from step.py: one record as a
csv line with `QUOTE_ALL` quoting and a `\r\n` terminator, measured in UTF-8
bytes like the Python `bytes` value. -/
def serializeCsvRecord (record : List String) : String :=
  String.intercalate ","
    (record.map (fun f => "\"" ++ String.mk (csvEscapeChars f.data) ++ "\"")) ++ "\r\n"

/-- `BulkApiDmlOperation._batch` from step.py: yields batches of serialized
csv rows, each starting with the serialized field-name header; a batch is cut
when the next record would push the running byte count over `charLimit`, or
when it holds `n` data rows; a leftover batch is yielded only if it has at
least one data row. -/
def bulkBatchGo (hdr : String) (n charLimit : Nat) :
    List (List String) → List String → Nat → List (List String)
  | [], batch, _ => if 1 < batch.length then [batch] else []
  | record :: rest, batch, currentChars =>
    let s := serializeCsvRecord record
    let size := s.utf8ByteSize
    let (pre, batch1, chars1) :=
      if charLimit < size + currentChars then ([batch], [hdr], hdr.utf8ByteSize)
      else ([], batch, currentChars)
    let batch2 := batch1 ++ [s]
    let chars2 := chars1 + size
    if batch2.length - 1 = n then
      pre ++ [batch2] ++ bulkBatchGo hdr n charLimit rest [hdr] hdr.utf8ByteSize
    else
      pre ++ bulkBatchGo hdr n charLimit rest batch2 chars2

/-- Entry point of `_batch`: the first row of every batch is the serialized
field names, counted in the byte budget. -/
def bulkBatch (fields : List String) (records : List (List String)) (n charLimit : Nat) :
    List (List String) :=
  let hdr := serializeCsvRecord fields
  bulkBatchGo hdr n charLimit records [hdr] hdr.utf8ByteSize

/-- C2: `_batch` does not respect the character limit when a single record
(plus the header) exceeds it — for fields `["f"]`, one ten-character record
and char limit 10 it yields a batch of serialized size 19 (it also first
yields a header-only batch with no data rows). -/
theorem claim_C2_batch_char_limit_exceeded :
    bulkBatch ["f"] [["0123456789"]] 5 10 =
      [["\"f\"\r\n"], ["\"f\"\r\n", "\"0123456789\"\r\n"]] ∧
    (((bulkBatch ["f"] [["0123456789"]] 5 10).getD 1 []).map String.utf8ByteSize).sum
      = 19 ∧
    ¬ (∀ b ∈ bulkBatch ["f"] [["0123456789"]] 5 10,
        (b.map String.utf8ByteSize).sum ≤ 10) := by
  refine ⟨by decide, by decide, fun h => ?_⟩
  exact absurd (h ["\"f\"\r\n", "\"0123456789\"\r\n"] (by decide)) (by decide)

/-- ASCII lower-casing of one character, as Python `str.lower` does on the
ASCII values appearing in API results. -/
def lowerChar (c : Char) : Char :=
  if 'A' ≤ c ∧ c ≤ 'Z' then Char.ofNat (c.toNat + 32) else c

/-- Modelled from the spec: `process_bool_arg` (cumulusci.core.utils, not
under src/) normalizes boolean-like values; Bulk API batch-result files carry
the strings "true" and "false". -/
def processBoolArg (s : String) : Bool := String.mk (s.data.map lowerChar) == "true"

/-- One row outcome as built by `_parse_batch_results` / the REST
`get_results`: the Python `DataOperationResult` NamedTuple, whose `id`,
`error` and `created` slots can in fact hold `None`. -/
structure BulkRowResult where
  id : Option String
  success : Bool
  error : Option String
  created : Bool
deriving DecidableEq, Repr

/-- One row of `BulkApiDmlOperation._parse_batch_results` from step.py:
`row[0] if success else None` for the id, `row[3] if not success else None`
for the error; `none` for a row too short for those subscripts (Python's
`IndexError`). -/
def parseBatchResultRow (row : List String) : Option BulkRowResult :=
  match row with
  | id :: successStr :: createdStr :: errorStr :: _ =>
    let success := processBoolArg successStr
    let created := processBoolArg createdStr
    some ⟨if success then some id else none, success,
          if success then none else some errorStr, created⟩
  | _ => none

/-- `BulkApiDmlOperation._parse_batch_results` from step.py over the csv rows
that follow the header row. -/
def parseBatchResults : List (List String) → Option (List BulkRowResult)
  | [] => some []
  | row :: rest =>
    match parseBatchResultRow row with
    | none => none
    | some r =>
      match parseBatchResults rest with
      | none => none
      | some rs => some (r :: rs)

/-- C5 counterexample: a failed row parsed from async batch results carries
`None` as its identifier, not a string — at the concrete row
`["003", "false", "false", "…"]` the parsed id equals no `some s`. -/
theorem claim_C5_counterexample :
    parseBatchResults
        [["003", "false", "false", "Required fields are missing: [LastName]"]] =
      some [⟨none, false, some "Required fields are missing: [LastName]", false⟩] ∧
    ∀ s : String,
      (⟨none, false, some "Required fields are missing: [LastName]", false⟩ :
        BulkRowResult).id ≠ some s :=
  ⟨by decide, fun _ h => Option.noConfusion h⟩

/-- Rows accepted by `parseBatchResultRow` carry a string id exactly on
success and a `None` id on failure. -/
theorem parseBatchResultRowId (row : List String) (r : BulkRowResult)
    (h : parseBatchResultRow row = some r) :
    (r.success = true → ∃ s, r.id = some s) ∧ (r.success = false → r.id = none) := by
  rcases row with _ | ⟨i, _ | ⟨sStr, _ | ⟨cStr, _ | ⟨eStr, rest⟩⟩⟩⟩
  · exact absurd h (by simp [parseBatchResultRow])
  · exact absurd h (by simp [parseBatchResultRow])
  · exact absurd h (by simp [parseBatchResultRow])
  · exact absurd h (by simp [parseBatchResultRow])
  · simp only [parseBatchResultRow, Option.some_inj] at h
    subst h
    cases hb : processBoolArg sStr <;> simp [hb]

/-- C5 (amended): every row outcome parsed from async batch results has a
string identifier when the row succeeded, and a `None` identifier (not the
empty string) when the row failed. -/
theorem claim_C5_batch_result_id_amended (rows : List (List String))
    (res : List BulkRowResult) (h : parseBatchResults rows = some res) :
    ∀ r ∈ res,
      (r.success = true → ∃ s, r.id = some s) ∧ (r.success = false → r.id = none) := by
  induction rows generalizing res with
  | nil =>
    simp only [parseBatchResults, Option.some_inj] at h
    subst h
    simp
  | cons row rest ih =>
    simp only [parseBatchResults] at h
    rcases hrow : parseBatchResultRow row with _ | r0
    · rw [hrow] at h; exact absurd h (by simp)
    · rw [hrow] at h
      rcases hrest : parseBatchResults rest with _ | rs
      · rw [hrest] at h; exact absurd h (by simp)
      · rw [hrest] at h
        simp only [Option.some_inj] at h
        subst h
        intro r hr
        rcases List.mem_cons.mp hr with h1 | h1
        · subst h1; exact parseBatchResultRowId row r hrow
        · exact ih rs hrest r h1

/-- C5 witness: one successful row, parsed, satisfies the amended property. -/
theorem claim_C5_witness :
    parseBatchResults [["001", "true", "true", ""]] =
      some [⟨some "001", true, none, true⟩] ∧
    ∀ r ∈ [(⟨some "001", true, none, true⟩ : BulkRowResult)],
      (r.success = true → ∃ s, r.id = some s) ∧ (r.success = false → r.id = none) :=
  ⟨by decide, claim_C5_batch_result_id_amended [["001", "true", "true", ""]] _ (by decide)⟩

/-- Fuel-driven chunking: each step takes `n` records and recurses on the
rest; fuel equal to the input length suffices for every `n ≥ 1`. -/
def chunkGo (n : Nat) : Nat → List α → List (List α)
  | _, [] => []
  | 0, _ :: _ => []
  | fuel + 1, x :: xs => (x :: xs).take n :: chunkGo n fuel ((x :: xs).drop n)

/-- Modelled from the spec: `iterate_in_chunks` (cumulusci.tasks.bulkdata.utils,
not under src/) — splits the record stream into successive chunks of at most
`n` records (the REST batch size, always at least 1). -/
def chunkList (n : Nat) (xs : List α) : List (List α) :=
  chunkGo n xs.length xs

/-- One entry of a REST composite-collection response: `{id, success, errors,
created}`. -/
structure RestRowResult where
  id : Option String
  success : Bool
  errors : List String
  created : Option Bool
deriving DecidableEq, Repr

/-- `RestApiDmlOperation.load_records` from step.py: the org is an oracle
(`respond chunk` is the response entry list for one composite request); the
chunk responses are concatenated into `self.results` and exactly one job
result is computed from that concatenation. -/
def restLoadRecords (batchSize : Nat) (respond : List (List String) → List RestRowResult)
    (records : List (List String)) : DataOperationJobResult × List RestRowResult :=
  let results := (chunkList batchSize records).flatMap respond
  let rowErrors := (results.filter (fun r => !r.success)).length
  (⟨if rowErrors = 0 then DataOperationStatus.SUCCESS else DataOperationStatus.ROW_FAILURE,
    [], results.length, rowErrors⟩, results)

/-- Five INSERT records, the third of which fails a required-field check. -/
def fiveRecords : List (List String) := [["r1"], ["r2"], ["r3"], ["r4"], ["r5"]]

/-- A concrete REST responder: one entry per record of the chunk, all
successful except `["r3"]`. -/
def respondFiveOneBad (chunk : List (List String)) : List RestRowResult :=
  chunk.map (fun rec =>
    if rec = ["r3"] then
      ⟨none, false, ["REQUIRED_FIELD_MISSING: Required fields are missing: [LastName]"],
        some false⟩
    else ⟨some "001xx0000000001AAA", true, [], some true⟩)

/-- A zero count of filtered failures says every entry succeeded. -/
theorem filterFailEqNil (results : List RestRowResult) :
    (results.filter (fun r => !r.success)).length = 0 ↔
      ∀ r ∈ results, r.success = true := by
  rw [List.length_eq_zero, List.filter_eq_nil_iff]
  constructor
  · intro h r hr
    have := h r hr
    simpa using this
  · intro h r hr
    simp [h r hr]

/-- A nonzero count of filtered failures exhibits a failed entry. -/
theorem filterFailNeNil (results : List RestRowResult) :
    ¬ (results.filter (fun r => !r.success)).length = 0 ↔
      ∃ r ∈ results, r.success = false := by
  rw [filterFailEqNil]
  push_neg
  simp [Bool.not_eq_true]

/-- The status computed by `restLoadRecords` is row_failure exactly when some
entry failed, and success exactly when every entry succeeded. -/
theorem restLoadStatusIff (results : List RestRowResult) :
    (((if (results.filter (fun r => !r.success)).length = 0
        then DataOperationStatus.SUCCESS else DataOperationStatus.ROW_FAILURE) =
          DataOperationStatus.ROW_FAILURE) ↔ ∃ r ∈ results, r.success = false) ∧
    (((if (results.filter (fun r => !r.success)).length = 0
        then DataOperationStatus.SUCCESS else DataOperationStatus.ROW_FAILURE) =
          DataOperationStatus.SUCCESS) ↔ ∀ r ∈ results, r.success = true) := by
  by_cases h0 : (results.filter (fun r => !r.success)).length = 0
  · rw [if_pos h0]
    rw [filterFailEqNil] at h0
    refine ⟨⟨fun hst => absurd hst (by decide), ?_⟩, fun _ => h0, fun _ => rfl⟩
    rintro ⟨r, hr, hfalse⟩
    rw [h0 r hr] at hfalse
    cases hfalse
  · rw [if_neg h0]
    have hex := (filterFailNeNil results).mp h0
    refine ⟨⟨fun _ => hex, fun _ => rfl⟩, fun hst => absurd hst (by decide), ?_⟩
    intro hall
    exact absurd ((filterFailEqNil results).mpr hall) h0

/-- C8: the sync REST backend produces exactly one job result for the whole
operation, computed from the concatenation of all chunk results:
records_processed is the number of result entries, total_row_errors the
number of unsuccessful entries, and the status is row_failure exactly when at
least one entry failed, success otherwise; in particular 5 INSERT records
with one invalid record yield row_failure with records_processed 5 and
total_row_errors 1. -/
theorem claim_C8_rest_load_aggregation :
    (∀ (batchSize : Nat) (respond : List (List String) → List RestRowResult)
        (records : List (List String)),
      (restLoadRecords batchSize respond records).2 =
        (chunkList batchSize records).flatMap respond ∧
      (restLoadRecords batchSize respond records).1.records_processed =
        (restLoadRecords batchSize respond records).2.length ∧
      (restLoadRecords batchSize respond records).1.total_row_errors =
        ((restLoadRecords batchSize respond records).2.filter
          (fun r => !r.success)).length ∧
      ((restLoadRecords batchSize respond records).1.status =
          DataOperationStatus.ROW_FAILURE ↔
        ∃ r ∈ (restLoadRecords batchSize respond records).2, r.success = false) ∧
      ((restLoadRecords batchSize respond records).1.status =
          DataOperationStatus.SUCCESS ↔
        ∀ r ∈ (restLoadRecords batchSize respond records).2, r.success = true)) ∧
    (restLoadRecords 200 respondFiveOneBad fiveRecords).1 =
      ⟨DataOperationStatus.ROW_FAILURE, [], 5, 1⟩ := by
  constructor
  · intro batchSize respond records
    refine ⟨rfl, rfl, rfl, (restLoadStatusIff _).1, (restLoadStatusIff _).2⟩
  · decide

/-- Python regex `\s` over the ASCII whitespace that can appear in SOQL
clauses: space, tab, newline, carriage return, vertical tab, form feed. -/
def isPySpace (c : Char) : Bool :=
  c == ' ' || c == '\t' || c == '\n' || c == '\r' ||
    c == Char.ofNat 11 || c == Char.ofNat 12

/-- Python `str.strip()`: removes leading and trailing whitespace. -/
def pyStrip (s : String) : String :=
  String.mk (((s.data.dropWhile isPySpace).reverse.dropWhile isPySpace).reverse)

/-- Case-insensitive match of the (lowercase) keyword at the head of the
character list; returns the remainder on success. -/
def matchKeywordCI : List Char → List Char → Option (List Char)
  | [], cs => some cs
  | _ :: _, [] => none
  | k :: ks, c :: cs => if lowerChar c = k then matchKeywordCI ks cs else none

/-- Numeric value of a digit run, as `int()` reads the captured group. -/
def digitsToNat (ds : List Char) : Nat :=
  ds.foldl (fun n c => n * 10 + (c.toNat - 48)) 0

/-- `re.search` for a pattern of the shape `KW\s+(\d+)` with `re.IGNORECASE`:
the scan advances one character at a time and the first position where the
keyword, mandatory whitespace, and a (greedy) digit run all match yields the
captured number. -/
def searchClauseNum (kw : List Char) : List Char → Option Nat
  | [] => none
  | c :: cs =>
    (match matchKeywordCI kw (c :: cs) with
     | some (r :: rs) =>
       if isPySpace r then
         let ds := ((r :: rs).dropWhile isPySpace).takeWhile Char.isDigit
         if ds.isEmpty then none else some (digitsToNat ds)
       else none
     | _ => none).orElse (fun _ => searchClauseNum kw cs)

/-- Attempted match of `\s+KW\s+\d+\s*` at the head of the character list;
returns the remainder after the (greedy) match. Backtracking cannot produce
any other match here because the keyword starts with a non-space character
and the digit run is followed by optional whitespace only. -/
def subClauseAt (kw : List Char) : List Char → Option (List Char)
  | [] => none
  | c :: cs =>
    if isPySpace c then
      match matchKeywordCI kw ((c :: cs).dropWhile isPySpace) with
      | some (r :: rs) =>
        if isPySpace r then
          let afterSp := (r :: rs).dropWhile isPySpace
          if (afterSp.takeWhile Char.isDigit).isEmpty then none
          else some ((afterSp.dropWhile Char.isDigit).dropWhile isPySpace)
        else none
      | _ => none
    else none

/-- `re.sub` of `\s+KW\s+\d+\s*` by a single space with `re.IGNORECASE`:
scans left to right replacing non-overlapping matches. The fuel (the input
length) bounds the recursion; every step consumes at least one character. -/
def subAllClauseGo (kw : List Char) : Nat → List Char → List Char
  | _, [] => []
  | 0, cs => cs
  | fuel + 1, c :: cs =>
    match subClauseAt kw (c :: cs) with
    | some rest => ' ' :: subAllClauseGo kw fuel rest
    | none => c :: subAllClauseGo kw fuel cs

/-- Entry point for the clause-stripping substitution. -/
def subAllClause (kw : List Char) (cs : List Char) : List Char :=
  subAllClauseGo kw cs.length cs

/-- `generate_user_filter_query` from step.py: reads any existing LIMIT and
OFFSET out of the filter clause (the merged limit is the minimum of existing
and requested, the merged offset their sum), strips the original clauses
(each replaced by a single space, ends trimmed), and appends normalized
`LIMIT n` / `OFFSET n` suffixes to the assembled query. -/
def generateUserFilterQuery (filterClause : String) (sobject : String)
    (fields : List String) (limitClause offsetClause : Option Nat) : String :=
  let existingLimit := searchClauseNum "limit".data filterClause.data
  let existingOffset := searchClauseNum "offset".data filterClause.data
  let limitClause := match existingLimit, limitClause with
    | some e, some l => some (min e l)
    | some e, none => some e
    | none, l => l
  let offsetClause := match existingOffset, offsetClause with
    | some e, some o => some (e + o)
    | some e, none => some e
    | none, o => o
  let fc := pyStrip (String.mk (subAllClause "offset".data filterClause.data))
  let fc := pyStrip (String.mk (subAllClause "limit".data fc.data))
  let query := "SELECT " ++ String.intercalate ", " fields ++ " FROM " ++ sobject ++
    " " ++ fc
  let query := match limitClause with
    | some l => query ++ " LIMIT " ++ toString l
    | none => query
  match offsetClause with
  | some o => query ++ " OFFSET " ++ toString o
  | none => query

/-- C6: when the filter clause already carries a LIMIT and an OFFSET and both
are also requested, the merged query takes the minimum of the limits and the
sum of the offsets, strips the original clauses (collapsing the surrounding
whitespace), and re-appends normalized `LIMIT n`/`OFFSET n` suffixes. -/
theorem claim_C6_limit_offset_merge (f sobject : String) (fields : List String)
    (el eo l o : Nat)
    (hl : searchClauseNum "limit".data f.data = some el)
    (ho : searchClauseNum "offset".data f.data = some eo) :
    generateUserFilterQuery f sobject fields (some l) (some o) =
      "SELECT " ++ String.intercalate ", " fields ++ " FROM " ++ sobject ++ " " ++
        pyStrip (String.mk (subAllClause "limit".data
          (pyStrip (String.mk (subAllClause "offset".data f.data))).data)) ++
        " LIMIT " ++ toString (min el l) ++ " OFFSET " ++ toString (eo + o) := by
  simp only [generateUserFilterQuery, hl, ho]

/-- C6 witness: merging `SELECT * FROM users LIMIT 100 OFFSET 20` with limit
50 and offset 10 yields a clause ending `LIMIT 50 OFFSET 30` — the minimum of
the limits, the sum of the offsets, whitespace-normalized. -/
theorem claim_C6_witness :
    searchClauseNum "limit".data "SELECT * FROM users LIMIT 100 OFFSET 20".data =
      some 100 ∧
    searchClauseNum "offset".data "SELECT * FROM users LIMIT 100 OFFSET 20".data =
      some 20 ∧
    generateUserFilterQuery "SELECT * FROM users LIMIT 100 OFFSET 20" "users" ["Id"]
        (some 50) (some 10) =
      "SELECT Id FROM users SELECT * FROM users LIMIT 50 OFFSET 30" := by
  refine ⟨by decide, by decide, ?_⟩
  have h := claim_C6_limit_offset_merge "SELECT * FROM users LIMIT 100 OFFSET 20"
    "users" ["Id"] 100 20 50 10 (by decide) (by decide)
  rw [h]
  decide

end CumulusCI
